import Mathlib

/-!
Verification of the GEV return-period engine of `unseen/general_utils.py`.

The repository's own code is embedded shallowly over the rationals.  The
external numerical routines it calls (`scipy.stats.genextreme.fit`, `.sf`,
`.isf`, `.rvs`, `numpy.random.choice`, and the base-10 power used by
`numpy.logspace`) are opaque parameters, bundled in the structures `GevLib`
and `Rng`; the repository's control flow, data flow and arithmetic around
them are translated literally.  Division by zero follows numpy float
semantics via the type `PyF` (finite / infinite / NaN), and Python
exceptions are modelled with `Except Err`.
-/

namespace Unseen

/-- A numpy floating-point value as produced by the repository's own
arithmetic: a finite rational, positive infinity, or NaN. -/
inductive PyF where
  | fin (q : ℚ)
  | inf
  | nan
deriving DecidableEq

/-- `numpy.isfinite`: true only on finite values (false on inf and NaN). -/
def PyF.isFinite : PyF → Bool
  | .fin _ => true
  | .inf => false
  | .nan => false

/-- The rational carried by a finite value (junk elsewhere; only applied
after an `isFinite` filter). -/
def PyF.toQ : PyF → ℚ
  | .fin q => q
  | .inf => 0
  | .nan => 0

/-- `1. / p` on a numpy float64: division by zero yields infinity. -/
def oneDiv (p : ℚ) : PyF := if p = 0 then .inf else .fin (1 / p)

/-- True division `a / b` of two numpy integer counts: `x/0` is infinity for
`x > 0` and NaN for `0/0`, otherwise an exact float quotient. -/
def pyDivCount (a b : ℕ) : PyF :=
  if b = 0 then (if a = 0 then .nan else .inf) else .fin ((a : ℚ) / (b : ℚ))

/-- Multiplication of a numpy float by the literal 100 (used for the
percentile); inf and NaN absorb. -/
def pyMul100 : PyF → PyF
  | .fin q => .fin (q * 100)
  | .inf => .inf
  | .nan => .nan

/-- Python exceptions that the embedded code can raise. -/
inductive Err where
  | valueError (msg : String)
  | nameError (msg : String)
  | indexError (msg : String)
deriving DecidableEq

/-- The external distribution library (`scipy.stats.genextreme` and the
base-10 power behind `numpy.logspace`), abstracted: `fit data` is
`gev.fit(data)`, `fitSeeded data l s` is `gev.fit(data, loc=l, scale=s)`,
`sf x params` is `gev.sf(x, shape, loc, scale)`, `isf p params` is
`gev.isf(p, shape, loc, scale)`, and `pow10 e` is `10.0 ** e`. -/
structure GevLib where
  fit : List ℚ → ℚ × ℚ × ℚ
  fitSeeded : List ℚ → ℚ → ℚ → ℚ × ℚ × ℚ
  sf : ℚ → ℚ × ℚ × ℚ → ℚ
  isf : ℚ → ℚ × ℚ × ℚ → ℚ
  pow10 : ℚ → ℚ

/-- The global random state, abstracted as explicit streams: `rvsDraw i k p`
is the k-th variate of `gev.rvs(*p, size=...)` in bootstrap iteration `i`,
and `choiceIdx i k` the k-th random index drawn by `numpy.random.choice`
in iteration `i`. -/
structure Rng where
  rvsDraw : ℕ → ℕ → ℚ × ℚ × ℚ → ℚ
  choiceIdx : ℕ → ℕ → ℕ

/-- `data[::2]`: every second element of a list, starting at index 0. -/
def everySecond : List ℚ → List ℚ
  | [] => []
  | [x] => [x]
  | x :: _ :: rest => x :: everySecond rest

/-- Lines 141-171 of `general_utils.py` (`fit_gev`): a non-empty
`user_estimates` list is unpacked as `(loc, scale)` seed for a full-sample
fit (a list of the wrong length raises); otherwise `generate_estimates`
selects the pilot-seeded fit (pilot on `data[::2]`, shape discarded) or a
plain library-default fit. -/
def fit_gev (lib : GevLib) (data : List ℚ) (user_estimates : List ℚ)
    (generate_estimates : Bool) : Except Err (ℚ × ℚ × ℚ) :=
  match user_estimates, generate_estimates with
  | [], true =>
    match lib.fit (everySecond data) with
    | (_shape_estimate, loc_estimate, scale_estimate) =>
      .ok (lib.fitSeeded data loc_estimate scale_estimate)
  | [], false => .ok (lib.fit data)
  | [loc_estimate, scale_estimate], _ =>
    .ok (lib.fitSeeded data loc_estimate scale_estimate)
  | _, _ => .error (.valueError "cannot unpack user_estimates into loc and scale")

/-- The value produced by the pilot-seeded branch of `fit_gev` (lines
166-167): fit `data[::2]`, keep the pilot loc and scale, refit the full
sample seeded with them. -/
def pilotSeededFit (lib : GevLib) (data : List ℚ) : ℚ × ℚ × ℚ :=
  lib.fitSeeded data (lib.fit (everySecond data)).2.1 (lib.fit (everySecond data)).2.2

/-- Lines 174-181 (`return_period`): pilot-seeded GEV fit, then
`1. / gev.sf(event, ...)` with float division semantics. -/
def return_period (lib : GevLib) (data : List ℚ) (event : ℚ) : Except Err PyF :=
  match fit_gev lib data [] true with
  | .error e => .error e
  | .ok params => .ok (oneDiv (lib.sf event params))

/-- Lines 104-138 (`event_in_context`): count events above or below the
threshold according to `direction` (anything else raises `ValueError`);
the percentile always uses the below-threshold count; the return period is
the numpy division `n_population / n_events`. -/
def event_in_context (data : List ℚ) (threshold : ℚ) (direction : String) :
    Except Err (ℕ × ℕ × PyF × PyF) :=
  let n_population := data.length
  match (if direction = "below" then
           .ok (data.countP (fun x => decide (x < threshold)))
         else if direction = "above" then
           .ok (data.countP (fun x => decide (threshold < x)))
         else
           .error (Err.valueError "direction must be below or above") :
         Except Err ℕ) with
  | .error e => .error e
  | .ok n_events =>
    let percentile :=
      pyMul100 (pyDivCount (data.countP (fun x => decide (x < threshold))) n_population)
    let ret_period := pyDivCount n_population n_events
    .ok (n_events, n_population, ret_period, percentile)

/-- Count of elements strictly below the threshold (`np.sum(data < t)`). -/
def countLt (data : List ℚ) (t : ℚ) : ℕ := data.countP (fun x => decide (x < t))

/-- Count of elements strictly above the threshold (`np.sum(data > t)`). -/
def countGt (data : List ℚ) (t : ℚ) : ℕ := data.countP (fun x => decide (t < x))

/-- `np.linspace(a, b, num)`: `num` points `a + (b - a) * k / (num - 1)`. -/
def linspaceQ (a b : ℚ) (num : ℕ) : List ℚ :=
  (List.range num).map (fun k : ℕ => a + (b - a) * (k : ℚ) / ((num : ℚ) - 1))

/-- `np.logspace(a, b, num)`: `10 ** np.linspace(a, b, num)`, with the
base-10 power supplied by the external library. -/
def logspaceQ (lib : GevLib) (a b : ℚ) (num : ℕ) : List ℚ :=
  (linspaceQ a b num).map lib.pow10

/-- Line 200: `curve_return_periods = np.logspace(0, 4, num=10000)`. -/
def curveGrid (lib : GevLib) : List ℚ := logspaceQ lib 0 4 10000

/-- Line 201: `curve_probabilities = 1.0 / curve_return_periods`. -/
def curveProbs (lib : GevLib) : List ℚ := (curveGrid lib).map (fun x => 1 / x)

/-- The original fitted curve (line 202): `gev.isf(curve_probabilities, *fit)`
for the pilot-seeded fit of the data. -/
def origCurveVals (lib : GevLib) (data : List ℚ) : List ℚ :=
  (curveProbs lib).map (fun p => lib.isf p (pilotSeededFit lib data))

/-- `np.quantile(xs, q)` with the default linear-interpolation method:
sort ascending, take the virtual index `q * (n - 1)` and interpolate
between the two neighbouring order statistics; an empty input raises. -/
def npQuantile (xs : List ℚ) (q : ℚ) : Except Err ℚ :=
  match xs with
  | [] => .error (.indexError "cannot do a non-empty take from an empty axes")
  | _ :: _ =>
    let s := List.insertionSort (· ≤ ·) xs
    let h : ℚ := q * ((xs.length : ℚ) - 1)
    let i : ℕ := (⌊h⌋).toNat
    let lo := s.getD i 0
    let hi := s.getD (i + 1) lo
    .ok (lo + (h - (⌊h⌋ : ℚ)) * (hi - lo))

/-- `np.quantile(rows, q, axis=0)` on a stack of equal-length rows: the
quantile of each column. -/
def columnQuantile (rows : List (List ℚ)) (q : ℚ) : Except Err (List ℚ) :=
  match rows with
  | [] => .error (.indexError "zero-size array to reduction operation")
  | r0 :: _ =>
    (List.range r0.length).mapM (fun j => npQuantile (rows.map (fun r => r.getD j 0)) q)

/-- One bootstrap resample (lines 211-214): `parametric` draws
`len(data)` variates from the original fitted distribution, `non-parametric`
draws `len(data)` elements of `data` with replacement; any other method name
leaves `boot_data` unbound, which surfaces as a `NameError` at its first
use (line 215). -/
def bootResample (rng : Rng) (data : List ℚ) (origParams : ℚ × ℚ × ℚ)
    (method : String) (i : ℕ) : Except Err (List ℚ) :=
  if method = "parametric" then
    .ok ((List.range data.length).map (fun k => rng.rvsDraw i k origParams))
  else if method = "non-parametric" then
    .ok ((List.range data.length).map
      (fun k => data.getD (rng.choiceIdx i k % data.length) 0))
  else
    .error (.nameError "name boot_data is not defined")

/-- One bootstrap iteration (lines 211-222): resample, refit with the
pilot-seeded strategy, evaluate the replicate curve on the shared
probability grid, and the replicate event return period. -/
def bootReplicate (lib : GevLib) (rng : Rng) (data : List ℚ)
    (origParams : ℚ × ℚ × ℚ) (probs : List ℚ) (event_value : ℚ)
    (method : String) (i : ℕ) : Except Err (List ℚ × PyF) :=
  match bootResample rng data origParams method i with
  | .error e => .error e
  | .ok boot_data =>
    match fit_gev lib boot_data [] true with
    | .error e => .error e
    | .ok bootParams =>
      .ok (probs.map (fun p => lib.isf p bootParams),
           oneDiv (lib.sf event_value bootParams))

/-- The sequential bootstrap loop (lines 210-222): iterations run in order
0, 1, ..., appending each replicate curve and event return period; the
first raised exception aborts the loop. -/
def bootLoop (lib : GevLib) (rng : Rng) (data : List ℚ)
    (origParams : ℚ × ℚ × ℚ) (probs : List ℚ) (event_value : ℚ)
    (method : String) : ℕ → Except Err (List (List ℚ) × List PyF)
  | 0 => .ok ([], [])
  | n + 1 =>
    match bootLoop lib rng data origParams probs event_value method n with
    | .error e => .error e
    | .ok (rows, rps) =>
      match bootReplicate lib rng data origParams probs event_value method n with
      | .error e => .error e
      | .ok (row, rp) => .ok (rows ++ [row], rps ++ [rp])

/-- The curve output of `gev_return_curve` (line 226): the grid, the
original curve, and the per-point confidence bounds. -/
structure CurveData where
  return_periods : List ℚ
  values : List ℚ
  lower : List ℚ
  upper : List ℚ
deriving DecidableEq

/-- The event output of `gev_return_curve` (line 232): point estimate and
confidence bounds for the event return period. -/
structure EventData where
  return_period : PyF
  lower : ℚ
  upper : ℚ
deriving DecidableEq

/-- Lines 224-232: the confidence-interval aggregation.  The curve bands
are column quantiles of the stack whose first row is the original curve
(`boot_values = curve_values` before the loop, then `np.vstack`); the event
bounds are quantiles of the replicate event return periods after the
`np.isfinite` filter; the point estimate is packed unmodified. -/
def aggregateCI (grid curve_values : List ℚ) (event_rp : PyF)
    (rows : List (List ℚ)) (rps : List PyF) : Except Err (CurveData × EventData) :=
  match columnQuantile (curve_values :: rows) (0.025 : ℚ) with
  | .error e => .error e
  | .ok lower =>
    match columnQuantile (curve_values :: rows) (0.975 : ℚ) with
    | .error e => .error e
    | .ok upper =>
      match npQuantile ((rps.filter PyF.isFinite).map PyF.toQ) (0.025 : ℚ) with
      | .error e => .error e
      | .ok event_lower =>
        match npQuantile ((rps.filter PyF.isFinite).map PyF.toQ) (0.975 : ℚ) with
        | .error e => .error e
        | .ok event_upper =>
          .ok (⟨grid, curve_values, lower, upper⟩, ⟨event_rp, event_lower, event_upper⟩)

/-- The eager computations of `gev_return_curve` that complete before the
bootstrap loop runs, in Python's strict evaluation order: the original fit
(line 198), the curve evaluation (lines 200-202), the event point estimate
(lines 204-205). -/
inductive Step where
  | fitOriginal
  | curveEval
  | pointEstimate
deriving DecidableEq

/-- Lines 184-234 (`gev_return_curve`).  The first component records which
of the eager pre-loop computations completed before the function returned
or raised, mirroring Python's strict sequential evaluation; the second is
the returned `(curve_data, event_data)` or the raised exception. -/
def gev_return_curve (lib : GevLib) (rng : Rng) (data : List ℚ)
    (event_value : ℚ) (bootstrap_method : String) (n_bootstraps : ℕ) :
    List Step × Except Err (CurveData × EventData) :=
  match fit_gev lib data [] true with
  | .error e => ([], .error e)
  | .ok origParams =>
    ([Step.fitOriginal, Step.curveEval, Step.pointEstimate],
     match bootLoop lib rng data origParams (curveProbs lib) event_value
         bootstrap_method n_bootstraps with
     | .error e => .error e
     | .ok (rows, rps) =>
       aggregateCI (curveGrid lib)
         ((curveProbs lib).map (fun p => lib.isf p origParams))
         (oneDiv (lib.sf event_value origParams)) rows rps)

/-- Definition following the spec's words for §4.1 without user estimates:
pilot-seeded fit when `generate_estimates` is set, otherwise a direct
library-default fit.  Compared against `fit_gev` with its default empty
`user_estimates` list. -/
def fit_gev_without_user_estimates (lib : GevLib) (data : List ℚ)
    (generate_estimates : Bool) : Except Err (ℚ × ℚ × ℚ) :=
  if generate_estimates then .ok (pilotSeededFit lib data) else .ok (lib.fit data)

/-- A concrete instantiation of the external library, for evaluating the
embedding on closed inputs. -/
def lib0 : GevLib :=
  ⟨fun _ => (0, 0, 1), fun _ _ _ => (0, 0, 1), fun _ _ => 1, fun _ _ => 0,
   fun e => if e = 4 then 10000 else 1⟩

/-- A concrete external library whose survival function is identically
zero, so every event return period is infinite. -/
def libInf : GevLib :=
  ⟨fun _ => (0, 0, 1), fun _ _ _ => (0, 0, 1), fun _ _ => 0, fun _ _ => 0,
   fun _ => 1⟩

/-- A concrete random stream for evaluating the embedding. -/
def rng0 : Rng := ⟨fun _ _ _ => 0, fun _ _ => 0⟩

/-- The pilot-seeded branch is what `fit_gev` returns for an empty
`user_estimates` list with `generate_estimates` set. -/
theorem fit_gev_pilot_eq (lib : GevLib) (data : List ℚ) :
    fit_gev lib data [] true = .ok (pilotSeededFit lib data) := rfl

/-- `getD` on a mapped range evaluates the function at in-range indices. -/
theorem getD_map_range (f : ℕ → ℚ) (nn k : ℕ) (d : ℚ) (hk : k < nn) :
    ((List.range nn).map f).getD k d = f k := by
  rw [List.getD_eq_getElem _ _ (by simpa using hk)]
  simp

/-- `data[::2]` read at index `i` is the original element at index `2 * i`
(both sides defaulting outside their ranges). -/
theorem everySecond_getD : ∀ (xs : List ℚ) (i : ℕ) (d : ℚ),
    (everySecond xs).getD i d = xs.getD (2 * i) d
  | [], _, _ => by simp [everySecond]
  | [x], 0, d => by simp [everySecond]
  | [x], i + 1, d => by
    show ([x] : List ℚ).getD (i + 1) d = ([x] : List ℚ).getD (2 * (i + 1)) d
    rw [List.getD_eq_default _ _ (by simp), List.getD_eq_default _ _ (by simp; omega)]
  | x :: y :: rest, 0, d => by simp [everySecond]
  | x :: y :: rest, i + 1, d => by
    have ih := everySecond_getD rest i d
    show (x :: everySecond rest).getD (i + 1) d = (x :: y :: rest).getD (2 * (i + 1)) d
    have h2 : 2 * (i + 1) = 2 * i + 1 + 1 := by ring
    rw [List.getD_cons_succ, h2, List.getD_cons_succ, List.getD_cons_succ, ih]

/-- A successful bootstrap loop of `n` iterations produced exactly `n`
replicate rows and event return periods, the i-th pair being the output of
replicate `i`. -/
theorem bootLoop_ok_get (lib : GevLib) (rng : Rng) (data : List ℚ)
    (origParams : ℚ × ℚ × ℚ) (probs : List ℚ) (ev : ℚ) (m : String) :
    ∀ (n : ℕ) (rows : List (List ℚ)) (rps : List PyF),
      bootLoop lib rng data origParams probs ev m n = .ok (rows, rps) →
      rows.length = n ∧ rps.length = n ∧
        ∀ i, i < n →
          ∃ row rp, bootReplicate lib rng data origParams probs ev m i = .ok (row, rp)
            ∧ rows.getD i [] = row ∧ rps.getD i PyF.nan = rp := by
  intro n
  induction n with
  | zero =>
    intro rows rps h
    simp only [bootLoop, Except.ok.injEq, Prod.mk.injEq] at h
    obtain ⟨h1, h2⟩ := h
    subst h1
    subst h2
    exact ⟨rfl, rfl, fun i hi => absurd hi (Nat.not_lt_zero i)⟩
  | succ k ih =>
    intro rows rps h
    simp only [bootLoop] at h
    cases hb : bootLoop lib rng data origParams probs ev m k with
    | error e => simp [hb] at h
    | ok val =>
      obtain ⟨rows1, rps1⟩ := val
      simp only [hb] at h
      cases hr : bootReplicate lib rng data origParams probs ev m k with
      | error e => simp [hr] at h
      | ok pr =>
        obtain ⟨row, rp⟩ := pr
        simp only [hr, Except.ok.injEq, Prod.mk.injEq] at h
        obtain ⟨h1, h2⟩ := h
        subst h1
        subst h2
        obtain ⟨hl1, hl2, hget⟩ := ih rows1 rps1 hb
        refine ⟨by simp [hl1], by simp [hl2], ?_⟩
        intro i hi
        rcases Nat.lt_or_ge i k with hik | hik
        · obtain ⟨row2, rp2, hrep, hrow, hrp⟩ := hget i hik
          exact ⟨row2, rp2, hrep,
            by rw [List.getD_append _ _ _ _ (by omega), hrow],
            by rw [List.getD_append _ _ _ _ (by omega), hrp]⟩
        · have hik2 : i = k := by omega
          subst hik2
          refine ⟨row, rp, hr, ?_, ?_⟩
          · rw [List.getD_append_right _ _ _ _ (by omega)]
            simp [hl1]
          · rw [List.getD_append_right _ _ _ _ (by omega)]
            simp [hl2]

/-- A run of `gev_return_curve` whose bootstrap loop succeeded hands the
loop output, the original curve and the original event return period to the
confidence-interval aggregation. -/
theorem gev_return_curve_run (lib : GevLib) (rng : Rng) (data : List ℚ) (ev : ℚ)
    (m : String) (n : ℕ) (rows : List (List ℚ)) (rps : List PyF)
    (hloop : bootLoop lib rng data (pilotSeededFit lib data) (curveProbs lib) ev m n
      = .ok (rows, rps)) :
    (gev_return_curve lib rng data ev m n).2
      = aggregateCI (curveGrid lib) (origCurveVals lib data)
          (oneDiv (lib.sf ev (pilotSeededFit lib data))) rows rps := by
  have h0 : (gev_return_curve lib rng data ev m n).2 =
      (match bootLoop lib rng data (pilotSeededFit lib data) (curveProbs lib) ev m n with
       | .error e => (.error e : Except Err (CurveData × EventData))
       | .ok (rows2, rps2) =>
         aggregateCI (curveGrid lib) (origCurveVals lib data)
           (oneDiv (lib.sf ev (pilotSeededFit lib data))) rows2 rps2) := rfl
  rw [h0]
  simp only [hloop]

/-- A successful aggregation returns the grid, the original curve and the
event point estimate that were passed in. -/
theorem aggregateCI_ok (grid cv : List ℚ) (e : PyF) (rows : List (List ℚ))
    (rps : List PyF) (cd : CurveData) (ed : EventData)
    (h : aggregateCI grid cv e rows rps = .ok (cd, ed)) :
    cd.return_periods = grid ∧ cd.values = cv ∧ ed.return_period = e := by
  simp only [aggregateCI] at h
  cases h1 : columnQuantile (cv :: rows) (0.025 : ℚ) with
  | error e1 => simp [h1] at h
  | ok lower =>
    simp only [h1] at h
    cases h2 : columnQuantile (cv :: rows) (0.975 : ℚ) with
    | error e2 => simp [h2] at h
    | ok upper =>
      simp only [h2] at h
      cases h3 : npQuantile ((rps.filter PyF.isFinite).map PyF.toQ) (0.025 : ℚ) with
      | error e3 => simp [h3] at h
      | ok elo =>
        simp only [h3] at h
        cases h4 : npQuantile ((rps.filter PyF.isFinite).map PyF.toQ) (0.975 : ℚ) with
        | error e4 => simp [h4] at h
        | ok ehi =>
          simp only [h4, Except.ok.injEq, Prod.mk.injEq] at h
          obtain ⟨hcd, hed⟩ := h
          subst hcd
          subst hed
          exact ⟨rfl, rfl, rfl⟩

/-- Claim C3: `fit_gev` selects exactly one of three strategies: a provided
(loc, scale) pair seeds a full-sample fit; otherwise `generate_estimates`
triggers a pilot fit on every second element whose loc and scale (the pilot
shape is discarded) seed the full-sample refit; otherwise the full sample is
fit with library defaults.  `everySecond` is exactly the stride-2 subsample. -/
theorem fit_gev_strategy_selection (lib : GevLib) (data : List ℚ) (l s : ℚ) (g : Bool) :
    fit_gev lib data [l, s] g = .ok (lib.fitSeeded data l s)
  ∧ fit_gev lib data [] true
      = .ok (lib.fitSeeded data (lib.fit (everySecond data)).2.1
          (lib.fit (everySecond data)).2.2)
  ∧ fit_gev lib data [] false = .ok (lib.fit data)
  ∧ (∀ i d, (everySecond data).getD i d = data.getD (2 * i) d) := by
  refine ⟨by cases g <;> rfl, rfl, rfl, fun i d => everySecond_getD data i d⟩

/-- Claim C10: an empty `user_estimates` list (the default) is treated as
"no user estimates": `fit_gev` then behaves exactly as the spec's
no-user-estimates contract (pilot-seeded fit when `generate_estimates`,
direct fit otherwise). -/
theorem fit_gev_empty_user_estimates (lib : GevLib) (data : List ℚ) (g : Bool) :
    fit_gev lib data [] g = fit_gev_without_user_estimates lib data g := by
  cases g <;> rfl

/-- Claim C6: `event_in_context` counts strictly-greater observations for
direction `above` and strictly-smaller ones for `below`, while the
percentile is always `(count below threshold / population) * 100`; on
`[1,2,3,4,5]` with threshold 3 and direction `above` this gives
`(2, 5, 2.5, 40)`. -/
theorem event_in_context_statistics (data : List ℚ) (t : ℚ) :
    event_in_context data t "above"
      = .ok (countGt data t, data.length, pyDivCount data.length (countGt data t),
             pyMul100 (pyDivCount (countLt data t) data.length))
  ∧ event_in_context data t "below"
      = .ok (countLt data t, data.length, pyDivCount data.length (countLt data t),
             pyMul100 (pyDivCount (countLt data t) data.length))
  ∧ event_in_context [1, 2, 3, 4, 5] 3 "above"
      = .ok (2, 5, PyF.fin (5 / 2), PyF.fin 40) := by
  have hab : ∀ (da : List ℚ) (th : ℚ), event_in_context da th "above"
      = .ok (countGt da th, da.length, pyDivCount da.length (countGt da th),
             pyMul100 (pyDivCount (countLt da th) da.length)) := by
    intro da th
    simp [event_in_context, countLt, countGt]
  refine ⟨hab data t, by simp [event_in_context, countLt, countGt], ?_⟩
  rw [hab [1, 2, 3, 4, 5] 3]
  have h1 : countGt [1, 2, 3, 4, 5] 3 = 2 := by
    simp [countGt, List.countP_cons]
    norm_num
  have h2 : countLt [1, 2, 3, 4, 5] 3 = 2 := by
    simp [countLt, List.countP_cons]
    norm_num
  rw [h1, h2]
  norm_num [pyDivCount, pyMul100]

/-- Claim C9: any direction other than `above` or `below` makes
`event_in_context` raise `ValueError` before any statistic is computed. -/
theorem event_in_context_invalid_direction (data : List ℚ) (t : ℚ) (dir : String)
    (h1 : dir ≠ "above") (h2 : dir ≠ "below") :
    event_in_context data t dir = .error (.valueError "direction must be below or above") := by
  simp [event_in_context, h1, h2]

/-- Witness for `event_in_context_invalid_direction` at a concrete input. -/
theorem event_in_context_invalid_direction_witness :
    ("invalid" : String) ≠ "above" ∧ ("invalid" : String) ≠ "below"
  ∧ event_in_context [1, 2] 3 "invalid"
      = .error (.valueError "direction must be below or above") :=
  ⟨by decide, by decide,
   event_in_context_invalid_direction [1, 2] 3 "invalid" (by decide) (by decide)⟩

/-- Counterexample to claim C8 as stated: on an empty population with no
qualifying events the numpy division `0 / 0` yields NaN, so the function
returns normally with a NaN return period, which is neither an error nor an
infinite value. -/
theorem event_in_context_empty_population_cex :
    event_in_context ([] : List ℚ) 3 "above" = .ok (0, 0, PyF.nan, PyF.nan)
  ∧ PyF.nan ≠ PyF.inf := by
  constructor
  · simp [event_in_context, pyDivCount, pyMul100]
  · decide

/-- Claim C8 (amended): `event_in_context` returns
`return_period = n_population / n_events` under numpy division semantics;
with no qualifying events the division by zero is not suppressed: it
surfaces as an infinite value when the population is non-empty, and as NaN
for an empty population (0 / 0). -/
theorem event_in_context_return_period_division (data : List ℚ) (t : ℚ) (dir : String)
    (hdir : dir = "above" ∨ dir = "below") :
    ∃ ne pc, event_in_context data t dir
        = .ok (ne, data.length, pyDivCount data.length ne, pc)
      ∧ (ne = 0 → data ≠ [] → pyDivCount data.length ne = PyF.inf)
      ∧ (ne = 0 → data = [] → pyDivCount data.length ne = PyF.nan)
      ∧ (ne ≠ 0 → pyDivCount data.length ne = PyF.fin ((data.length : ℚ) / (ne : ℚ))) := by
  have hcase : ∀ ne : ℕ,
      (ne = 0 → data ≠ [] → pyDivCount data.length ne = PyF.inf)
    ∧ (ne = 0 → data = [] → pyDivCount data.length ne = PyF.nan)
    ∧ (ne ≠ 0 → pyDivCount data.length ne = PyF.fin ((data.length : ℚ) / (ne : ℚ))) := by
    intro ne
    refine ⟨?_, ?_, ?_⟩
    · intro h0 hne
      subst h0
      have : data.length ≠ 0 := by
        simpa using fun hh => hne (List.length_eq_zero.mp hh)
      simp [pyDivCount, this]
    · intro h0 hnil
      subst h0
      subst hnil
      simp [pyDivCount]
    · intro h0
      simp [pyDivCount, h0]
  rcases hdir with rfl | rfl
  · exact ⟨countGt data t, pyMul100 (pyDivCount (countLt data t) data.length),
      by simp [event_in_context, countLt, countGt], hcase (countGt data t)⟩
  · exact ⟨countLt data t, pyMul100 (pyDivCount (countLt data t) data.length),
      by simp [event_in_context, countLt, countGt], hcase (countLt data t)⟩

/-- Witness for `event_in_context_return_period_division`: a concrete
non-empty population with no events above the threshold, where the return
period surfaces as infinity. -/
theorem event_in_context_return_period_division_witness :
    (("above" : String) = "above" ∨ ("above" : String) = "below")
  ∧ (∃ ne pc, event_in_context [1, 2] 5 "above"
        = .ok (ne, ([1, 2] : List ℚ).length, pyDivCount ([1, 2] : List ℚ).length ne, pc)
      ∧ (ne = 0 → ([1, 2] : List ℚ) ≠ [] →
          pyDivCount ([1, 2] : List ℚ).length ne = PyF.inf)
      ∧ (ne = 0 → ([1, 2] : List ℚ) = [] →
          pyDivCount ([1, 2] : List ℚ).length ne = PyF.nan)
      ∧ (ne ≠ 0 → pyDivCount ([1, 2] : List ℚ).length ne
          = PyF.fin ((([1, 2] : List ℚ).length : ℚ) / (ne : ℚ)))) :=
  ⟨Or.inl rfl, event_in_context_return_period_division [1, 2] 5 "above" (Or.inl rfl)⟩

/-- The quantile of a one-element sample is that element, for any q. -/
theorem npQuantile_singleton (c q : ℚ) : npQuantile [c] q = .ok c := by
  simp [npQuantile, List.insertionSort, List.orderedInsert]

/-- Column quantiles of a one-row, one-column stack. -/
theorem columnQuantile_one (c q : ℚ) : columnQuantile [[c]] q = .ok [c] := by
  have h1 : List.range ([c] : List ℚ).length = [0] := rfl
  simp only [columnQuantile, h1, List.mapM_cons, List.mapM_nil]
  simp [npQuantile_singleton, Except.bind]

/-- One unfolding step of the bootstrap loop. -/
theorem bootLoop_succ (lib : GevLib) (rng : Rng) (data : List ℚ)
    (origParams : ℚ × ℚ × ℚ) (probs : List ℚ) (ev : ℚ) (m : String) (n : ℕ) :
    bootLoop lib rng data origParams probs ev m (n + 1)
      = (match bootLoop lib rng data origParams probs ev m n with
         | .error e => .error e
         | .ok (rows, rps) =>
           match bootReplicate lib rng data origParams probs ev m n with
           | .error e => .error e
           | .ok (row, rp) => .ok (rows ++ [row], rps ++ [rp])) := rfl

/-- With an unrecognized bootstrap method, the first loop iteration already
fails with the unbound `boot_data` NameError, and so does the whole loop. -/
theorem bootLoop_invalid_method (lib : GevLib) (rng : Rng) (data : List ℚ)
    (origParams : ℚ × ℚ × ℚ) (probs : List ℚ) (ev : ℚ) (m : String)
    (hm1 : m ≠ "parametric") (hm2 : m ≠ "non-parametric") :
    ∀ k, bootLoop lib rng data origParams probs ev m (k + 1)
      = .error (.nameError "name boot_data is not defined") := by
  intro k
  induction k with
  | zero =>
    rw [bootLoop_succ]
    simp [bootLoop, bootReplicate, bootResample, hm1, hm2]
  | succ j ih =>
    rw [bootLoop_succ, ih]

/-- Counterexample to claim C5 as stated: with an unrecognized method the
failure is an unbound-variable `NameError`, not an invalid-argument
`ValueError`, and the original GEV fit, the curve evaluation and the event
point estimate have all been performed before it surfaces. -/
theorem gev_return_curve_invalid_method_cex :
    gev_return_curve lib0 rng0 [1, 2, 3] 5 "bogus" 1
      = ([Step.fitOriginal, Step.curveEval, Step.pointEstimate],
         .error (.nameError "name boot_data is not defined")) := rfl

/-- Claim C5 (amended): with a bootstrap method that is neither
`parametric` nor `non-parametric` and at least one bootstrap iteration,
`gev_return_curve` fails with an unbound-variable NameError raised inside
the first bootstrap iteration, after the original GEV fit, the curve
evaluation and the event point estimate have all been performed. -/
theorem gev_return_curve_invalid_method_behaviour (lib : GevLib) (rng : Rng)
    (data : List ℚ) (ev : ℚ) (m : String) (n : ℕ)
    (hm1 : m ≠ "parametric") (hm2 : m ≠ "non-parametric") (hn : 1 ≤ n) :
    gev_return_curve lib rng data ev m n
      = ([Step.fitOriginal, Step.curveEval, Step.pointEstimate],
         .error (.nameError "name boot_data is not defined")) := by
  obtain ⟨k, rfl⟩ : ∃ k, n = k + 1 := ⟨n - 1, by omega⟩
  have h0 : gev_return_curve lib rng data ev m (k + 1) =
      ([Step.fitOriginal, Step.curveEval, Step.pointEstimate],
       match bootLoop lib rng data (pilotSeededFit lib data) (curveProbs lib) ev m (k + 1) with
       | .error e => (.error e : Except Err (CurveData × EventData))
       | .ok (rows2, rps2) =>
         aggregateCI (curveGrid lib) (origCurveVals lib data)
           (oneDiv (lib.sf ev (pilotSeededFit lib data))) rows2 rps2) := rfl
  rw [h0, bootLoop_invalid_method lib rng data (pilotSeededFit lib data) (curveProbs lib) ev m hm1 hm2 k]

/-- Witness for `gev_return_curve_invalid_method_behaviour` at a concrete
input distinct from the counterexample. -/
theorem gev_return_curve_invalid_method_behaviour_witness :
    ("bogus2" : String) ≠ "parametric" ∧ ("bogus2" : String) ≠ "non-parametric" ∧ 1 ≤ 2
  ∧ gev_return_curve lib0 rng0 [1] 4 "bogus2" 2
      = ([Step.fitOriginal, Step.curveEval, Step.pointEstimate],
         .error (.nameError "name boot_data is not defined")) :=
  ⟨by decide, by decide, by decide,
   gev_return_curve_invalid_method_behaviour lib0 rng0 [1] 4 "bogus2" 2
     (by decide) (by decide) (by decide)⟩

/-- Claim C1: a run of `gev_return_curve` aggregates via `aggregateCI`,
whose curve bands are per-grid-point 2.5th and 97.5th percentiles over the
stack headed by the original unbootstrapped curve (10,000 grid points), and
whose event bounds are those percentiles over only the finite replicate
event return periods, the original point estimate being passed through
separately and not included in that collection. -/
theorem gev_return_curve_confidence_bands
    (lib : GevLib) (rng : Rng) (data : List ℚ) (ev : ℚ) (m : String) (n : ℕ)
    (rows rows2 : List (List ℚ)) (rps rps2 : List PyF)
    (curveVals lo hi : List ℚ) (evRP : PyF) (elo ehi : ℚ)
    (hloop : bootLoop lib rng data (pilotSeededFit lib data) (curveProbs lib) ev m n
      = .ok (rows, rps))
    (hlo : columnQuantile (curveVals :: rows2) (0.025 : ℚ) = .ok lo)
    (hhi : columnQuantile (curveVals :: rows2) (0.975 : ℚ) = .ok hi)
    (helo : npQuantile ((rps2.filter PyF.isFinite).map PyF.toQ) (0.025 : ℚ) = .ok elo)
    (hehi : npQuantile ((rps2.filter PyF.isFinite).map PyF.toQ) (0.975 : ℚ) = .ok ehi) :
    (gev_return_curve lib rng data ev m n).2
      = aggregateCI (curveGrid lib) (origCurveVals lib data)
          (oneDiv (lib.sf ev (pilotSeededFit lib data))) rows rps
  ∧ (origCurveVals lib data).length = 10000
  ∧ aggregateCI (curveGrid lib) curveVals evRP rows2 rps2
      = .ok (⟨curveGrid lib, curveVals, lo, hi⟩, ⟨evRP, elo, ehi⟩) := by
  refine ⟨gev_return_curve_run lib rng data ev m n rows rps hloop, ?_, ?_⟩
  · rw [origCurveVals, List.length_map, curveProbs, List.length_map, curveGrid, logspaceQ,
      List.length_map, linspaceQ, List.length_map, List.length_range]
  · simp only [aggregateCI, hlo, hhi, helo, hehi]

/-- Witness for `gev_return_curve_confidence_bands` at concrete inputs
(empty loop for the run conjunct; a one-point stack and a replicate event
list containing an infinite value for the aggregation conjunct). -/
theorem gev_return_curve_confidence_bands_witness :
    bootLoop lib0 rng0 [1, 2] (pilotSeededFit lib0 [1, 2]) (curveProbs lib0) 7
        "non-parametric" 0 = .ok ([], [])
  ∧ columnQuantile [[5]] (0.025 : ℚ) = .ok [5]
  ∧ columnQuantile [[5]] (0.975 : ℚ) = .ok [5]
  ∧ npQuantile (([PyF.fin 2, PyF.inf].filter PyF.isFinite).map PyF.toQ) (0.025 : ℚ) = .ok 2
  ∧ npQuantile (([PyF.fin 2, PyF.inf].filter PyF.isFinite).map PyF.toQ) (0.975 : ℚ) = .ok 2
  ∧ ((gev_return_curve lib0 rng0 [1, 2] 7 "non-parametric" 0).2
      = aggregateCI (curveGrid lib0) (origCurveVals lib0 [1, 2])
          (oneDiv (lib0.sf 7 (pilotSeededFit lib0 [1, 2]))) [] []
    ∧ (origCurveVals lib0 [1, 2]).length = 10000
    ∧ aggregateCI (curveGrid lib0) [5] PyF.nan [] [PyF.fin 2, PyF.inf]
        = .ok (⟨curveGrid lib0, [5], [5], [5]⟩, ⟨PyF.nan, 2, 2⟩)) := by
  have hq1 : npQuantile (([PyF.fin 2, PyF.inf].filter PyF.isFinite).map PyF.toQ)
      (0.025 : ℚ) = .ok 2 := by
    simp [PyF.isFinite, PyF.toQ, npQuantile_singleton]
  have hq2 : npQuantile (([PyF.fin 2, PyF.inf].filter PyF.isFinite).map PyF.toQ)
      (0.975 : ℚ) = .ok 2 := by
    simp [PyF.isFinite, PyF.toQ, npQuantile_singleton]
  exact ⟨rfl, columnQuantile_one 5 (0.025 : ℚ), columnQuantile_one 5 (0.975 : ℚ), hq1, hq2,
    gev_return_curve_confidence_bands lib0 rng0 [1, 2] 7 "non-parametric" 0
      [] [] [] [PyF.fin 2, PyF.inf] [5] [5] [5] PyF.nan 2 2 rfl
      (columnQuantile_one 5 (0.025 : ℚ)) (columnQuantile_one 5 (0.975 : ℚ)) hq1 hq2⟩

/-- Claim C4: when the fitted survival probability at the event is zero,
the single-estimate path (`return_period`, and the point estimate inside
`gev_return_curve`) propagates the infinite return period unmodified, while
the ensemble aggregation drops non-finite event return periods before the
event confidence interval (the event bounds depend only on the finite
replicate values), and the curve ensemble is handed over without any
finiteness filtering. -/
theorem infinite_return_period_handling
    (lib : GevLib) (rng : Rng) (data : List ℚ) (ev : ℚ) (m : String) (n : ℕ)
    (rows : List (List ℚ)) (rps : List PyF)
    (hsf : lib.sf ev (pilotSeededFit lib data) = 0)
    (hloop : bootLoop lib rng data (pilotSeededFit lib data) (curveProbs lib) ev m n
      = .ok (rows, rps)) :
    return_period lib data ev = .ok PyF.inf
  ∧ (gev_return_curve lib rng data ev m n).2
      = aggregateCI (curveGrid lib) (origCurveVals lib data) PyF.inf rows rps
  ∧ (∀ cd ed, aggregateCI (curveGrid lib) (origCurveVals lib data) PyF.inf rows rps
        = .ok (cd, ed) → ed.return_period = PyF.inf)
  ∧ (∀ rps2, rps2.filter PyF.isFinite = rps.filter PyF.isFinite →
      aggregateCI (curveGrid lib) (origCurveVals lib data) PyF.inf rows rps2
        = aggregateCI (curveGrid lib) (origCurveVals lib data) PyF.inf rows rps) := by
  have hinf : oneDiv (lib.sf ev (pilotSeededFit lib data)) = PyF.inf := by
    rw [hsf]
    simp [oneDiv]
  refine ⟨?_, ?_, ?_, ?_⟩
  · have h0 : return_period lib data ev
        = .ok (oneDiv (lib.sf ev (pilotSeededFit lib data))) := rfl
    rw [h0, hinf]
  · rw [gev_return_curve_run lib rng data ev m n rows rps hloop, hinf]
  · intro cd ed h
    exact (aggregateCI_ok _ _ _ _ _ _ _ h).2.2
  · intro rps2 hfil
    simp only [aggregateCI, hfil]

/-- Witness for `infinite_return_period_handling`: a concrete library whose
survival function is identically zero, with an empty bootstrap loop. -/
theorem infinite_return_period_handling_witness :
    libInf.sf 3 (pilotSeededFit libInf [1, 2]) = 0
  ∧ bootLoop libInf rng0 [1, 2] (pilotSeededFit libInf [1, 2]) (curveProbs libInf) 3
      "parametric" 0 = .ok ([], [])
  ∧ (return_period libInf [1, 2] 3 = .ok PyF.inf
    ∧ (gev_return_curve libInf rng0 [1, 2] 3 "parametric" 0).2
        = aggregateCI (curveGrid libInf) (origCurveVals libInf [1, 2]) PyF.inf [] []
    ∧ (∀ cd ed, aggregateCI (curveGrid libInf) (origCurveVals libInf [1, 2]) PyF.inf [] []
          = .ok (cd, ed) → ed.return_period = PyF.inf)
    ∧ (∀ rps2, rps2.filter PyF.isFinite = ([] : List PyF).filter PyF.isFinite →
        aggregateCI (curveGrid libInf) (origCurveVals libInf [1, 2]) PyF.inf [] rps2
          = aggregateCI (curveGrid libInf) (origCurveVals libInf [1, 2]) PyF.inf [] [])) :=
  ⟨rfl, rfl,
   infinite_return_period_handling libInf rng0 [1, 2] 3 "parametric" 0 [] [] rfl rfl⟩

/-- Claim C2: in the bootstrap loop of `gev_return_curve`, each replicate
resamples exactly `len(data)` points — drawn from the original fitted GEV
for `parametric` or with replacement from the observed data for
`non-parametric` — and refits the resample with the pilot-seeded strategy
(`fit_gev` with `generate_estimates` set), the loop that feeds
`gev_return_curve` receiving the original fit as its parameters. -/
theorem gev_return_curve_bootstrap_replicates
    (lib : GevLib) (rng : Rng) (data : List ℚ) (origParams : ℚ × ℚ × ℚ)
    (probs : List ℚ) (ev : ℚ) (m : String) (i n : ℕ)
    (rows : List (List ℚ)) (rps : List PyF)
    (hne : data ≠ [])
    (hloop : bootLoop lib rng data origParams probs ev m n = .ok (rows, rps))
    (hi : i < n) :
    (∃ bd, bootResample rng data origParams m i = .ok bd
       ∧ bd.length = data.length
       ∧ (m = "parametric" →
           bd = (List.range data.length).map (fun k => rng.rvsDraw i k origParams))
       ∧ (m = "non-parametric" → ∀ x ∈ bd, x ∈ data)
       ∧ fit_gev lib bd [] true = .ok (pilotSeededFit lib bd)
       ∧ rows.getD i [] = probs.map (fun p => lib.isf p (pilotSeededFit lib bd))
       ∧ rps.getD i PyF.nan = oneDiv (lib.sf ev (pilotSeededFit lib bd)))
  ∧ (∀ rows3 rps3,
      bootLoop lib rng data (pilotSeededFit lib data) (curveProbs lib) ev m n
        = .ok (rows3, rps3) →
      (gev_return_curve lib rng data ev m n).2
        = aggregateCI (curveGrid lib) (origCurveVals lib data)
            (oneDiv (lib.sf ev (pilotSeededFit lib data))) rows3 rps3) := by
  refine ⟨?_, fun rows3 rps3 h3 => gev_return_curve_run lib rng data ev m n rows3 rps3 h3⟩
  obtain ⟨_, _, hget⟩ := bootLoop_ok_get lib rng data origParams probs ev m n rows rps hloop
  obtain ⟨row, rp, hrep, hrow, hrp⟩ := hget i hi
  cases hbd : bootResample rng data origParams m i with
  | error e => simp [bootReplicate, hbd] at hrep
  | ok bd =>
    have hfit : fit_gev lib bd [] true = .ok (pilotSeededFit lib bd) :=
      fit_gev_pilot_eq lib bd
    simp only [bootReplicate, hbd, hfit, Except.ok.injEq, Prod.mk.injEq] at hrep
    obtain ⟨hr1, hr2⟩ := hrep
    have hcrow : rows.getD i [] = probs.map (fun p => lib.isf p (pilotSeededFit lib bd)) := by
      rw [hrow, ← hr1]
    have hcrp : rps.getD i PyF.nan = oneDiv (lib.sf ev (pilotSeededFit lib bd)) := by
      rw [hrp, ← hr2]
    by_cases hm1 : m = "parametric"
    · subst hm1
      have hbd2 : bd = (List.range data.length).map (fun k => rng.rvsDraw i k origParams) := by
        rw [bootResample, if_pos rfl] at hbd
        exact (Except.ok.inj hbd).symm
      refine ⟨bd, rfl, by simp [hbd2], fun _ => hbd2, ?_, hfit, hcrow, hcrp⟩
      intro hcon
      exact absurd hcon (by decide)
    · by_cases hm2 : m = "non-parametric"
      · subst hm2
        have hbd2 : bd = (List.range data.length).map
            (fun k => data.getD (rng.choiceIdx i k % data.length) 0) := by
          rw [bootResample, if_neg (by decide), if_pos rfl] at hbd
          exact (Except.ok.inj hbd).symm
        refine ⟨bd, rfl, by simp [hbd2], fun hcon => absurd hcon (by decide), ?_,
          hfit, hcrow, hcrp⟩
        intro _ x hx
        rw [hbd2] at hx
        simp only [List.mem_map, List.mem_range] at hx
        obtain ⟨k, _, hgd⟩ := hx
        have hpos : 0 < data.length := List.length_pos.mpr hne
        have hlt : rng.choiceIdx i k % data.length < data.length := Nat.mod_lt _ hpos
        rw [List.getD_eq_getElem _ _ hlt] at hgd
        rw [← hgd]
        exact List.getElem_mem hlt
      · simp [bootResample, hm1, hm2] at hbd

/-- Witness for `gev_return_curve_bootstrap_replicates`: one non-parametric
bootstrap iteration on a one-point sample with an empty probability grid. -/
theorem gev_return_curve_bootstrap_replicates_witness :
    ([1] : List ℚ) ≠ []
  ∧ bootLoop lib0 rng0 [1] (0, 0, 1) [] 7 "non-parametric" 1 = .ok ([[]], [PyF.fin 1])
  ∧ 0 < 1
  ∧ ((∃ bd, bootResample rng0 [1] (0, 0, 1) "non-parametric" 0 = .ok bd
       ∧ bd.length = ([1] : List ℚ).length
       ∧ ("non-parametric" = "parametric" →
           bd = (List.range ([1] : List ℚ).length).map (fun k => rng0.rvsDraw 0 k (0, 0, 1)))
       ∧ ("non-parametric" = "non-parametric" → ∀ x ∈ bd, x ∈ ([1] : List ℚ))
       ∧ fit_gev lib0 bd [] true = .ok (pilotSeededFit lib0 bd)
       ∧ ([[]] : List (List ℚ)).getD 0 []
           = ([] : List ℚ).map (fun p => lib0.isf p (pilotSeededFit lib0 bd))
       ∧ ([PyF.fin 1] : List PyF).getD 0 PyF.nan
           = oneDiv (lib0.sf 7 (pilotSeededFit lib0 bd)))
    ∧ (∀ rows3 rps3,
        bootLoop lib0 rng0 [1] (pilotSeededFit lib0 [1]) (curveProbs lib0) 7
            "non-parametric" 1 = .ok (rows3, rps3) →
        (gev_return_curve lib0 rng0 [1] 7 "non-parametric" 1).2
          = aggregateCI (curveGrid lib0) (origCurveVals lib0 [1])
              (oneDiv (lib0.sf 7 (pilotSeededFit lib0 [1]))) rows3 rps3)) := by
  have hl : bootLoop lib0 rng0 [1] (0, 0, 1) [] 7 "non-parametric" (0 + 1)
      = .ok ([[]], [PyF.fin 1]) := by
    rw [bootLoop_succ]
    simp [bootLoop, bootReplicate, bootResample, fit_gev, everySecond, lib0, rng0,
      oneDiv, List.range_succ]
  exact ⟨by decide, hl, by decide,
    gev_return_curve_bootstrap_replicates lib0 rng0 [1] (0, 0, 1) [] 7
      "non-parametric" 0 1 [[]] [PyF.fin 1] (by decide) hl (by decide)⟩

/-- Claim C7: the return-period grid is `np.logspace(0, 4, 10000)` — exactly
10,000 points whose exponents are evenly spaced from 0 to 4, so the grid
spans 1 to 10,000 years — computed once per call: the returned curve x-axis
is that grid, the probability grid is its pointwise reciprocal, and every
bootstrap replicate row is the inverse survival function mapped over the
one shared probability grid (only the fitted parameters differ). -/
theorem gev_return_curve_log_grid
    (lib : GevLib) (rng : Rng) (data : List ℚ) (ev : ℚ) (m : String) (n n2 : ℕ)
    (origP : ℚ × ℚ × ℚ) (probs : List ℚ) (rows : List (List ℚ)) (rps : List PyF)
    (h1 : lib.pow10 0 = 1) (h2 : lib.pow10 4 = 10000)
    (hloop : bootLoop lib rng data origP probs ev m n2 = .ok (rows, rps)) :
    (curveGrid lib).length = 10000
  ∧ curveGrid lib = (linspaceQ 0 4 10000).map lib.pow10
  ∧ (∀ k, k < 9999 →
      (linspaceQ 0 4 10000).getD (k + 1) 0 - (linspaceQ 0 4 10000).getD k 0 = 4 / 9999)
  ∧ (curveGrid lib).getD 0 0 = 1
  ∧ (curveGrid lib).getD 9999 0 = 10000
  ∧ curveProbs lib = (curveGrid lib).map (fun x => 1 / x)
  ∧ (∀ cd ed, (gev_return_curve lib rng data ev m n).2 = .ok (cd, ed) →
      cd.return_periods = curveGrid lib)
  ∧ (∀ i, i < n2 → ∃ params, rows.getD i [] = probs.map (fun p => lib.isf p params)) := by
  have hmm : curveGrid lib = (List.range 10000).map
      (fun k : ℕ => lib.pow10 (0 + (4 - 0) * (k : ℚ) / (((10000 : ℕ) : ℚ) - 1))) := by
    rw [curveGrid, logspaceQ, linspaceQ, List.map_map]
    rfl
  refine ⟨?_, rfl, ?_, ?_, ?_, rfl, ?_, ?_⟩
  · rw [curveGrid, logspaceQ, List.length_map, linspaceQ, List.length_map, List.length_range]
  · intro k hk
    rw [linspaceQ, getD_map_range _ _ _ _ (by omega), getD_map_range _ _ _ _ (by omega)]
    have h9 : (((10000 : ℕ) : ℚ) - 1) = 9999 := by norm_num
    rw [h9]
    push_cast
    field_simp
    ring
  · rw [hmm, getD_map_range _ _ _ _ (by norm_num)]
    norm_num
    exact h1
  · rw [hmm, getD_map_range _ _ _ _ (by norm_num)]
    norm_num
    exact h2
  · intro cd ed h
    have h0 : (gev_return_curve lib rng data ev m n).2 =
        (match bootLoop lib rng data (pilotSeededFit lib data) (curveProbs lib) ev m n with
         | .error e => (.error e : Except Err (CurveData × EventData))
         | .ok (rows2, rps2) =>
           aggregateCI (curveGrid lib) (origCurveVals lib data)
             (oneDiv (lib.sf ev (pilotSeededFit lib data))) rows2 rps2) := rfl
    rw [h0] at h
    cases hb : bootLoop lib rng data (pilotSeededFit lib data) (curveProbs lib) ev m n with
    | error e => simp [hb] at h
    | ok val =>
      obtain ⟨rows2, rps2⟩ := val
      simp only [hb] at h
      exact (aggregateCI_ok _ _ _ _ _ _ _ h).1
  · intro i hi
    obtain ⟨_, _, hget⟩ :=
      bootLoop_ok_get lib rng data origP probs ev m n2 rows rps hloop
    obtain ⟨row, rp, hrep, hrow, hrp⟩ := hget i hi
    cases hbd : bootResample rng data origP m i with
    | error e => simp [bootReplicate, hbd] at hrep
    | ok bd =>
      have hfit : fit_gev lib bd [] true = .ok (pilotSeededFit lib bd) :=
        fit_gev_pilot_eq lib bd
      simp only [bootReplicate, hbd, hfit, Except.ok.injEq, Prod.mk.injEq] at hrep
      exact ⟨pilotSeededFit lib bd, by rw [hrow, ← hrep.1]⟩

/-- Witness for `gev_return_curve_log_grid` at the concrete library `lib0`
(whose base-10 power takes the right values at the grid endpoints) with an
empty bootstrap loop. -/
theorem gev_return_curve_log_grid_witness :
    lib0.pow10 0 = 1
  ∧ lib0.pow10 4 = 10000
  ∧ bootLoop lib0 rng0 [1, 2] (0, 0, 1) [] 5 "non-parametric" 0 = .ok ([], [])
  ∧ ((curveGrid lib0).length = 10000
    ∧ curveGrid lib0 = (linspaceQ 0 4 10000).map lib0.pow10
    ∧ (∀ k, k < 9999 →
        (linspaceQ 0 4 10000).getD (k + 1) 0 - (linspaceQ 0 4 10000).getD k 0 = 4 / 9999)
    ∧ (curveGrid lib0).getD 0 0 = 1
    ∧ (curveGrid lib0).getD 9999 0 = 10000
    ∧ curveProbs lib0 = (curveGrid lib0).map (fun x => 1 / x)
    ∧ (∀ cd ed, (gev_return_curve lib0 rng0 [1, 2] 5 "non-parametric" 3).2 = .ok (cd, ed) →
        cd.return_periods = curveGrid lib0)
    ∧ (∀ i, i < 0 → ∃ params,
        ([] : List (List ℚ)).getD i [] = ([] : List ℚ).map (fun p => lib0.isf p params))) := by
  have hp1 : lib0.pow10 0 = 1 := by norm_num [lib0]
  have hp2 : lib0.pow10 4 = 10000 := by norm_num [lib0]
  exact ⟨hp1, hp2, rfl,
    gev_return_curve_log_grid lib0 rng0 [1, 2] 5 "non-parametric" 3 0 (0, 0, 1) [] [] []
      hp1 hp2 rfl⟩

end Unseen
